import Mathlib

/-!
Verification of the face-compare service (insightface-server).

The development shallowly embeds the two Python modules
`face_recognition.py` and `main.py`:

* numbers that the Python code manipulates as floats are modelled as real
  numbers; the NaN value that numpy produces on a 0.0/0.0 division is
  modelled explicitly by `Option ℝ` (`none` = NaN), because the behaviour
  of Python `min`/`max` on NaN is load-bearing for `cosine_similarity`;
* the two dictionaries `user_embeddings` / `user_faces` are modelled as
  insertion-ordered association lists with string keys, and the pickle
  file `user_data.pkl` as an optional snapshot field `disk`;
* the external InsightFace model, image decoding and the HTTP layer are
  boundaries: their outcome for one request is an explicit input
  (`ExtractOutcome`), never re-implemented.
-/

namespace FaceCompare

/-! ## Matcher: `cosine_similarity` (face_recognition.py lines 268-294)

numpy float semantics needed here: dividing the entries of a vector by
its own Euclidean norm performs `0.0 / 0.0` exactly when the norm is
zero (a zero norm forces every entry of that same vector to be zero),
and `0.0 / 0.0` yields NaN, not an exception.  NaN is modelled as
`none : Option ℝ`. -/

/-- Sum of squares of the entries, as in `np.linalg.norm`. -/
noncomputable def sumSq (v : List ℝ) : ℝ :=
  (v.map (fun x => x * x)).sum

/-- Euclidean norm `np.linalg.norm(v)`. -/
noncomputable def l2norm (v : List ℝ) : ℝ :=
  Real.sqrt (sumSq v)

/-- numpy elementwise division of a float by a float, keeping track of the
NaN produced by `0.0 / 0.0`.  In `cosine_similarity` the divisor is always
the norm of the vector the numerator comes from, so a zero divisor forces
a zero numerator and the only division-by-zero that can occur is
`0.0 / 0.0 = NaN`. -/
noncomputable def pdiv (x y : ℝ) : Option ℝ :=
  if y = 0 then none else some (x / y)

/-- Float multiplication: NaN absorbs. -/
noncomputable def pmul : Option ℝ → Option ℝ → Option ℝ
  | some x, some y => some (x * y)
  | _, _ => none

/-- Float addition: NaN absorbs. -/
noncomputable def padd : Option ℝ → Option ℝ → Option ℝ
  | some x, some y => some (x + y)
  | _, _ => none

/-- `np.dot` on two 1-D arrays: sum of elementwise products. -/
noncomputable def pdot (a b : List (Option ℝ)) : Option ℝ :=
  (List.zipWith pmul a b).foldl padd (some 0)

/-- Python `min(a, s)` where the first argument `a` is a plain float and
the second may be NaN: CPython keeps the first argument unless the second
compares strictly smaller, and every comparison against NaN is false. -/
noncomputable def pymin (a : ℝ) (b : Option ℝ) : ℝ :=
  match b with
  | none => a
  | some x => if x < a then x else a

/-- Python `max(a, b)` on two plain floats: keeps the first argument
unless the second compares strictly greater. -/
noncomputable def pymax (a b : ℝ) : ℝ :=
  if b > a then b else a

/-- `InsightFaceRecognition.cosine_similarity` (lines 279-290):
normalize both vectors by their own norms, take the dot product, then
clamp via `max(0.0, min(1.0, similarity))`. -/
noncomputable def cosine_similarity (v1 v2 : List ℝ) : ℝ :=
  let u1 := v1.map (fun x => pdiv x (l2norm v1))
  let u2 := v2.map (fun x => pdiv x (l2norm v2))
  pymax 0 (pymin 1 (pdot u1 u2))

/-! ## Matcher: decision rule (face_recognition.py lines 243-246) -/

/-- Line 243: `is_match = similarity >= threshold`. -/
noncomputable def is_match (similarity threshold : ℝ) : Bool :=
  if similarity ≥ threshold then true else false

/-- Python `min(a, b)` on two plain floats (no NaN involved here). -/
noncomputable def pyminF (a b : ℝ) : ℝ :=
  if b < a then b else a

/-- Line 246: `confidence = min(similarity * 1.2, 1.0)`. -/
noncomputable def confidence_of (similarity : ℝ) : ℝ :=
  pyminF (similarity * 1.2) 1

/-! ### Claims C3 and C4 -/

/-- Claim C3: for every similarity value `s` and threshold `t`, the
decision sets `isMatch` to `s ≥ t` and `confidence` to
`min (s * 1.2) 1`. -/
theorem C3_decision_rule (s t : ℝ) :
    (is_match s t = true ↔ s ≥ t) ∧ confidence_of s = min (s * 1.2) 1 := by
  constructor
  · unfold is_match
    by_cases h : s ≥ t <;> simp [h]
  · unfold confidence_of pyminF
    by_cases h : (1 : ℝ) < s * 1.2
    · rw [if_pos h, min_eq_right h.le]
    · rw [if_neg h, min_eq_left (not_lt.mp h)]

/-- The clamp `max(0.0, min(1.0, s))` lands in `[0, 1]` for every float
`s`, NaN included. -/
theorem clamp_mem_unit (t : Option ℝ) :
    0 ≤ pymax 0 (pymin 1 t) ∧ pymax 0 (pymin 1 t) ≤ 1 := by
  cases t with
  | none =>
      simp only [pymin, pymax]
      norm_num
  | some x =>
      simp only [pymin, pymax]
      split_ifs <;> constructor <;> linarith

/-- Claim C4: for every pair of embedding vectors (of equal length, as
produced by one fixed model), the similarity lies in `[0, 1]`. -/
theorem C4_similarity_in_unit_interval (v1 v2 : List ℝ)
    (_h : v1.length = v2.length) :
    0 ≤ cosine_similarity v1 v2 ∧ cosine_similarity v1 v2 ≤ 1 := by
  unfold cosine_similarity
  exact clamp_mem_unit _

/-- Witness for C4 at the concrete pair `[1]`, `[1]`. -/
theorem C4_witness :
    ([(1 : ℝ)].length = [(1 : ℝ)].length) ∧
      (0 ≤ cosine_similarity [(1 : ℝ)] [(1 : ℝ)] ∧
        cosine_similarity [(1 : ℝ)] [(1 : ℝ)] ≤ 1) :=
  ⟨rfl, C4_similarity_in_unit_interval [(1 : ℝ)] [(1 : ℝ)] rfl⟩

/-! ### Claim C2: zero-norm inputs

The spec says a zero-norm input makes `cosine_similarity` return `0.0`
via the exception handler.  In fact numpy does not raise on `0.0 / 0.0`;
it produces NaN, the dot product is NaN, and the Python clamp
`max(0.0, min(1.0, nan))` evaluates to `1.0` because every comparison
against NaN is false. -/

theorem foldl_padd_none (l : List (Option ℝ)) : l.foldl padd none = none := by
  induction l with
  | nil => rfl
  | cons x xs ih =>
      have hx : padd none x = none := by cases x <;> rfl
      rw [List.foldl_cons, hx, ih]

theorem pdot_cons_none_left (x : Option ℝ) (t1 t2 : List (Option ℝ)) :
    pdot (none :: t1) (x :: t2) = none := by
  unfold pdot
  rw [List.zipWith_cons_cons]
  have hm : pmul none x = none := by cases x <;> rfl
  have ha : padd (some 0) none = none := rfl
  rw [hm, List.foldl_cons, ha, foldl_padd_none]

theorem pdot_cons_none_right (x : Option ℝ) (t1 t2 : List (Option ℝ)) :
    pdot (x :: t1) (none :: t2) = none := by
  unfold pdot
  rw [List.zipWith_cons_cons]
  have hm : pmul x none = none := by cases x <;> rfl
  have ha : padd (some 0) none = none := rfl
  rw [hm, List.foldl_cons, ha, foldl_padd_none]

/-- Counterexample to claim C2 as stated: the vector `[0]` has zero
Euclidean norm, yet `cosine_similarity [0] [1]` returns `1.0`,
not `0.0`. -/
theorem C2_counterexample :
    l2norm [(0 : ℝ)] = 0 ∧
      cosine_similarity [(0 : ℝ)] [(1 : ℝ)] = 1 ∧
      cosine_similarity [(0 : ℝ)] [(1 : ℝ)] ≠ 0 := by
  have h0 : l2norm [(0 : ℝ)] = 0 := by
    simp [l2norm, sumSq]
  refine ⟨h0, ?_, ?_⟩ <;>
  · simp only [cosine_similarity, List.map_cons, List.map_nil, h0]
    rw [show pdiv (0 : ℝ) 0 = none from by simp [pdiv]]
    rw [pdot_cons_none_left]
    simp [pymin, pymax]

/-- Claim C2 amended: for nonempty equal-length vectors where at least
one input has zero Euclidean norm, `cosine_similarity` returns exactly
`1.0` (and, being total, raises no error): the division produces NaN,
NaN absorbs through the dot product, and `max(0.0, min(1.0, nan))` is
`1.0`. -/
theorem C2_amended_zero_norm (v1 v2 : List ℝ) (hne : v1 ≠ [])
    (hlen : v1.length = v2.length)
    (h0 : l2norm v1 = 0 ∨ l2norm v2 = 0) :
    cosine_similarity v1 v2 = 1 := by
  obtain ⟨a, t1, rfl⟩ := List.exists_cons_of_ne_nil hne
  cases v2 with
  | nil => simp at hlen
  | cons b t2 =>
      cases h0 with
      | inl h =>
          simp only [cosine_similarity, List.map_cons, h]
          rw [show pdiv a 0 = none from by simp [pdiv]]
          rw [pdot_cons_none_left]
          simp [pymin, pymax]
      | inr h =>
          simp only [cosine_similarity, List.map_cons, h]
          rw [show pdiv b 0 = none from by simp [pdiv]]
          rw [pdot_cons_none_right]
          simp [pymin, pymax]

/-- Witness for the amended C2 at the concrete pair `[0]`, `[5]`. -/
theorem C2_amended_witness :
    (([(0 : ℝ)] : List ℝ) ≠ [] ∧
      [(0 : ℝ)].length = [(5 : ℝ)].length ∧ l2norm [(0 : ℝ)] = 0) ∧
      cosine_similarity [(0 : ℝ)] [(5 : ℝ)] = 1 :=
  ⟨⟨by simp, rfl, by simp [l2norm, sumSq]⟩,
    C2_amended_zero_norm [(0 : ℝ)] [(5 : ℝ)] (by simp) rfl
      (Or.inl (by simp [l2norm, sumSq]))⟩

/-! ## Face Extractor: candidate selection
(face_recognition.py, `detect_and_extract_face`, line 123)

The InsightFace model returns a list of candidate faces, each with a
bounding box `(x1, y1, x2, y2)` and an embedding.  Line 123 selects
`max(faces, key=lambda x: x.bbox[2] * x.bbox[3])`, i.e. the candidate
maximising `x2 * y2`.  Coordinates are modelled as rationals. -/

/-- A detection bounding box `(x1, y1, x2, y2)`, as unpacked at line 130
of face_recognition.py. -/
structure BBox where
  x1 : ℚ
  y1 : ℚ
  x2 : ℚ
  y2 : ℚ
deriving DecidableEq

/-- One candidate returned by the detector: a bounding box and an
embedding (kept abstract as a tag). -/
structure DetFace where
  bbox : BBox
  embedding : ℕ
deriving DecidableEq

/-- Python `max(iterable, key=k)` on a nonempty list: scans left to
right and replaces the current best only on a strictly greater key, so
the first maximal element wins ties. -/
def pyMaxBy (key : DetFace → ℚ) (best : DetFace) : List DetFace → DetFace
  | [] => best
  | f :: fs => pyMaxBy key (if key f > key best then f else best) fs

/-- The key used at line 123: `x.bbox[2] * x.bbox[3]`, that is
`x2 * y2`. -/
def detectKey (f : DetFace) : ℚ :=
  f.bbox.x2 * f.bbox.y2

/-- Candidate selection of `detect_and_extract_face`: `None` when the
detector found no face (lines 118-120), otherwise the `max` of line
123. -/
def select_face : List DetFace → Option DetFace
  | [] => none
  | f :: fs => some (pyMaxBy detectKey f fs)

/-- Modelled from the spec (section 4.2): the selection rule the spec
states, largest bounding-box area `(x2 - x1) * (y2 - y1)`, ties broken
by first-returned order.  Kept separate from `select_face`, which embeds
what the code does. -/
def bboxArea (f : DetFace) : ℚ :=
  (f.bbox.x2 - f.bbox.x1) * (f.bbox.y2 - f.bbox.y1)

/-- Modelled from the spec (section 4.2): selection by largest area. -/
def select_face_spec : List DetFace → Option DetFace
  | [] => none
  | f :: fs => some (pyMaxBy bboxArea f fs)

/-! ### Claim C1 -/

/-- Claim C1 fails on the code: with a large face at the image origin,
bbox `(0, 0, 10, 10)` (area 100, corner product 100), and a small face
near the far corner, bbox `(90, 90, 95, 95)` (area 25, corner product
9025), the code selects the small far face because its key is
`x2 * y2`, while the largest-area rule of the spec (and of the comment
right above line 123, which says the largest face is taken) selects the
big face at the origin. -/
theorem C1_select_divergence :
    select_face
        [⟨⟨0, 0, 10, 10⟩, 0⟩, ⟨⟨90, 90, 95, 95⟩, 1⟩] =
        some ⟨⟨90, 90, 95, 95⟩, 1⟩ ∧
      select_face_spec
        [⟨⟨0, 0, 10, 10⟩, 0⟩, ⟨⟨90, 90, 95, 95⟩, 1⟩] =
        some ⟨⟨0, 0, 10, 10⟩, 0⟩ ∧
      bboxArea ⟨⟨0, 0, 10, 10⟩, 0⟩ > bboxArea ⟨⟨90, 90, 95, 95⟩, 1⟩ := by
  refine ⟨?_, ?_, by norm_num [bboxArea]⟩ <;>
    simp [select_face, select_face_spec, pyMaxBy, detectKey, bboxArea] <;>
    norm_num

/-! ## Embedding store (face_recognition.py)

`user_embeddings : Dict[str, np.ndarray]` and `user_faces : Dict[str,
Dict]` are insertion-ordered dictionaries; they are modelled as
association lists.  The pickle file `user_data.pkl` is modelled by the
`disk` field: `none` means the file does not exist.  The store is kept
polymorphic in the embedding type `ε` and in the pixel payload `φ` of a
face crop; `compare_faces` instantiates `ε := List ℝ`. -/

/-- A decoded face crop: pixel payload plus `shape`
(height, width, channels). -/
structure FaceImg (φ : Type) where
  pixels : φ
  shape : ℕ × ℕ × ℕ
deriving DecidableEq

/-- The per-user metadata dict stored in `user_faces` (lines 176-180):
`face_image`, `created_at`, `image_size`. -/
structure FaceMeta (φ : Type) where
  face_image : FaceImg φ
  created_at : String
  image_size : ℕ × ℕ × ℕ
deriving DecidableEq

/-- Joint outcome of `base64_to_image` plus `detect_and_extract_face`
for one request image.  `decodeError` is the `ValueError` raised at line
102; `noFace` is the `(None, None)` return; `ok` carries the selected
face crop and its embedding.  The decoding and the model call are
external boundaries, so the outcome is an input of the model. -/
inductive ExtractOutcome (ε φ : Type) where
  | decodeError (msg : String)
  | noFace
  | ok (img : FaceImg φ) (emb : ε)
deriving DecidableEq

/-- The in-memory state of `InsightFaceRecognition` plus the
`user_data.pkl` snapshot. -/
structure RecState (ε φ : Type) where
  user_embeddings : List (String × ε)
  user_faces : List (String × FaceMeta φ)
  disk : Option (List (String × ε) × List (String × FaceMeta φ))
deriving DecidableEq

/-- Python `key in dict`. -/
def dictContains {α : Type} (d : List (String × α)) (k : String) : Bool :=
  d.any (fun p => p.1 == k)

/-- Python `dict[key]` lookup, `none` when the key is absent. -/
def dictGet {α : Type} (d : List (String × α)) (k : String) : Option α :=
  (d.find? (fun p => p.1 == k)).map Prod.snd

/-- Python `dict[key] = v`: updates in place when the key exists,
otherwise appends at the end (insertion order). -/
def dictSet {α : Type} (d : List (String × α)) (k : String) (v : α) :
    List (String × α) :=
  if dictContains d k then
    d.map (fun p => if p.1 == k then (k, v) else p)
  else
    d ++ [(k, v)]

/-- Python `del dict[key]` when the key is present: drops that key,
keeping the order of the others (dict keys are unique). -/
def dictDel {α : Type} (d : List (String × α)) (k : String) :
    List (String × α) :=
  d.filter (fun p => p.1 != k)

/-- Python `del dict[key]` in general: raises `KeyError` (modelled as
`none`) when the key is absent. -/
def dictDelOpt {α : Type} (d : List (String × α)) (k : String) :
    Option (List (String × α)) :=
  if dictContains d k then some (dictDel d k) else none

/-- Keys of a dict, in insertion order. -/
def dictKeys {α : Type} (d : List (String × α)) : List String :=
  d.map Prod.fst

/-- `save_user_data` (lines 61-72): writes the pair of maps to
`user_data.pkl`.  A write failure is caught, logged and ignored
(`writeOk = false` leaves the file as it was). -/
def save_user_data {ε φ : Type} (st : RecState ε φ) (writeOk : Bool) :
    RecState ε φ :=
  if writeOk then
    { st with disk := some (st.user_embeddings, st.user_faces) }
  else
    st

/-- `load_user_data` (lines 49-59): if `user_data.pkl` exists, replace
both maps with its contents; a missing file leaves the maps as they
are. -/
def load_user_data {ε φ : Type} (st : RecState ε φ) : RecState ε φ :=
  match st.disk with
  | none => st
  | some d => { st with user_embeddings := d.1, user_faces := d.2 }

/-- The `data` payload of a successful registration (lines 190-194). -/
structure RegData where
  userId : String
  faceData : String
  faceCount : ℕ
deriving DecidableEq

/-- The result dict of `register_face`. -/
structure RegResult where
  success : Bool
  message : String
  data : Option RegData
deriving DecidableEq

/-- `register_face` (lines 143-202) in state-passing form: decode and
extraction happen first, then the duplicate check, then the two dict
writes followed by `save_user_data`.  A `ValueError` from decoding
reaches the outer handler at line 197. -/
def register_face {ε φ : Type} (st : RecState ε φ) (user_id : String)
    (eo : ExtractOutcome ε φ) (now : String) (writeOk : Bool) :
    RegResult × RecState ε φ :=
  match eo with
  | .decodeError msg => (⟨false, "人脸注册失败: " ++ msg, none⟩, st)
  | .noFace => (⟨false, "未检测到人脸或人脸检测失败", none⟩, st)
  | .ok img emb =>
      if dictContains st.user_embeddings user_id then
        (⟨false, "用户已存在，请使用不同的用户ID", none⟩, st)
      else
        let embs := dictSet st.user_embeddings user_id emb
        let faces := dictSet st.user_faces user_id ⟨img, now, img.shape⟩
        let st1 := save_user_data ⟨embs, faces, st.disk⟩ writeOk
        (⟨true, "人脸注册成功", some ⟨user_id, "registered", embs.length⟩⟩,
          st1)

/-- The result dict of `delete_user`. -/
structure DelResult where
  success : Bool
  message : String
deriving DecidableEq

/-- `delete_user` (lines 347-382) in state-passing form.  When the user
is present, `del user_embeddings[...]` succeeds; if `user_faces` lacked
the key, the unguarded `del user_faces[...]` would raise `KeyError`,
land in the handler at line 377 and return failure with the embedding
already removed. -/
def delete_user {ε φ : Type} (st : RecState ε φ) (user_id : String)
    (writeOk : Bool) : DelResult × RecState ε φ :=
  if dictContains st.user_embeddings user_id then
    let embs := dictDel st.user_embeddings user_id
    match dictDelOpt st.user_faces user_id with
    | some faces =>
        let st1 := save_user_data ⟨embs, faces, st.disk⟩ writeOk
        (⟨true, "用户删除成功"⟩, st1)
    | none =>
        (⟨false, "删除用户失败: KeyError"⟩, ⟨embs, st.user_faces, st.disk⟩)
  else
    (⟨false, "用户不存在"⟩, st)

/-- The `data` payload for one user (lines 316-320 and 332-336). -/
structure UserInfo where
  userId : String
  createdAt : String
  imageSize : ℕ × ℕ × ℕ
deriving DecidableEq

/-- The result dict of `get_user_info`. -/
structure GetResult where
  success : Bool
  message : String
  data : Option UserInfo
deriving DecidableEq

/-- `get_user_info` (lines 296-321): reads `user_faces` only, never
mutates. -/
def get_user_info {ε φ : Type} (st : RecState ε φ) (user_id : String) :
    GetResult × RecState ε φ :=
  match dictGet st.user_faces user_id with
  | none => (⟨false, "用户不存在", none⟩, st)
  | some info =>
      (⟨true, "获取用户信息成功",
        some ⟨user_id, info.created_at, info.image_size⟩⟩, st)

/-- The result dict of `get_all_users`. -/
structure ListResult where
  success : Bool
  message : String
  users : List UserInfo
  totalCount : ℕ
deriving DecidableEq

/-- `get_all_users` (lines 323-345): lists `user_faces` in insertion
order, never mutates. -/
def get_all_users {ε φ : Type} (st : RecState ε φ) :
    ListResult × RecState ε φ :=
  let users := st.user_faces.map (fun p => UserInfo.mk p.1 p.2.created_at p.2.image_size)
  (⟨true, "获取所有用户信息成功", users, users.length⟩, st)

/-- The `data` payload of a successful comparison (lines 253-258). -/
structure CompareData where
  similarity : ℝ
  isMatch : Bool
  confidence : ℝ
  threshold : ℝ

/-- The result dict of `compare_faces`. -/
structure CompareResult where
  success : Bool
  message : String
  data : Option CompareData

/-- `compare_faces` (lines 204-266) in state-passing form: the
membership test of line 218 and the lookup of line 237 are combined into
one association-list lookup; the method never writes state.  Embeddings
are real vectors here because the matcher runs on them. -/
noncomputable def compare_faces {φ : Type} (st : RecState (List ℝ) φ)
    (user_id : String) (eo : ExtractOutcome (List ℝ) φ) (threshold : ℝ) :
    CompareResult × RecState (List ℝ) φ :=
  match dictGet st.user_embeddings user_id with
  | none => (⟨false, "用户不存在，请先注册", none⟩, st)
  | some stored =>
      match eo with
      | .decodeError msg => (⟨false, "人脸对比失败: " ++ msg, none⟩, st)
      | .noFace => (⟨false, "未检测到人脸或人脸检测失败", none⟩, st)
      | .ok _img emb =>
          let similarity := cosine_similarity emb stored
          (⟨true, "人脸对比完成",
            some ⟨similarity, is_match similarity threshold,
              confidence_of similarity, threshold⟩⟩, st)

/-! ### Claims C5, C6, C8, C9 -/

/-- Claim C5: registering a userId that is already present fails with
the already-exists message and leaves the state (both maps and the disk
snapshot) unchanged; moreover no registration attempt on a present
userId changes the state, whatever the extraction outcome. -/
theorem C5_register_duplicate {ε φ : Type} (st : RecState ε φ)
    (user_id : String) (img : FaceImg φ) (emb : ε) (now : String)
    (writeOk : Bool) (eo : ExtractOutcome ε φ)
    (h : dictContains st.user_embeddings user_id = true) :
    register_face st user_id (.ok img emb) now writeOk =
      (⟨false, "用户已存在，请使用不同的用户ID", none⟩, st) ∧
    (register_face st user_id eo now writeOk).2 = st := by
  constructor
  · simp [register_face, h]
  · cases eo <;> simp [register_face, h]

/-- Witness for C5: a second registration of `alice`. -/
theorem C5_witness :
    (dictContains
        (RecState.user_embeddings
          (⟨[("alice", 1)], [("alice", ⟨⟨0, (1, 1, 3)⟩, "t0", (1, 1, 3)⟩)],
            none⟩ : RecState ℕ ℕ)) "alice" = true) ∧
      (register_face
          (⟨[("alice", 1)], [("alice", ⟨⟨0, (1, 1, 3)⟩, "t0", (1, 1, 3)⟩)],
            none⟩ : RecState ℕ ℕ) "alice" (.ok ⟨7, (4, 4, 3)⟩ 2) "t1" true =
        (⟨false, "用户已存在，请使用不同的用户ID", none⟩,
          ⟨[("alice", 1)], [("alice", ⟨⟨0, (1, 1, 3)⟩, "t0", (1, 1, 3)⟩)],
            none⟩) ∧
        (register_face
          (⟨[("alice", 1)], [("alice", ⟨⟨0, (1, 1, 3)⟩, "t0", (1, 1, 3)⟩)],
            none⟩ : RecState ℕ ℕ) "alice" .noFace "t1" true).2 =
          ⟨[("alice", 1)], [("alice", ⟨⟨0, (1, 1, 3)⟩, "t0", (1, 1, 3)⟩)],
            none⟩) :=
  ⟨by decide,
    C5_register_duplicate
      (⟨[("alice", 1)], [("alice", ⟨⟨0, (1, 1, 3)⟩, "t0", (1, 1, 3)⟩)],
        none⟩ : RecState ℕ ℕ) "alice" ⟨7, (4, 4, 3)⟩ 2 "t1" true .noFace
      (by decide)⟩

/-- Claim C6: deleting a userId that is not in the store fails with the
user-missing message and returns the state exactly as it was, maps and
disk snapshot included. -/
theorem C6_delete_missing {ε φ : Type} (st : RecState ε φ)
    (user_id : String) (writeOk : Bool)
    (h : dictContains st.user_embeddings user_id = false) :
    delete_user st user_id writeOk = (⟨false, "用户不存在"⟩, st) := by
  simp [delete_user, h]

/-- Witness for C6: deleting `bob` from an empty store. -/
theorem C6_witness :
    (dictContains
        (RecState.user_embeddings (⟨[], [], none⟩ : RecState ℕ ℕ)) "bob" =
      false) ∧
      delete_user (⟨[], [], none⟩ : RecState ℕ ℕ) "bob" true =
        (⟨false, "用户不存在"⟩, ⟨[], [], none⟩) :=
  ⟨by decide,
    C6_delete_missing (⟨[], [], none⟩ : RecState ℕ ℕ) "bob" true (by decide)⟩

/-- The durable snapshot coincides with the in-memory maps. -/
def diskMatches {ε φ : Type} (st : RecState ε φ) : Prop :=
  st.disk = some (st.user_embeddings, st.user_faces)

/-- Claim C8: when the write succeeds, every successful mutating call
(registration or deletion) leaves the disk snapshot equal to the
in-memory maps at the moment it returns, because `save_user_data` runs
synchronously before the return. -/
theorem C8_persist_after_mutation {ε φ : Type} (st1 : RecState ε φ)
    (uid1 : String) (eo : ExtractOutcome ε φ) (now : String)
    (st2 : RecState ε φ) (uid2 : String) :
    ((register_face st1 uid1 eo now true).1.success = true →
      diskMatches (register_face st1 uid1 eo now true).2) ∧
    ((delete_user st2 uid2 true).1.success = true →
      diskMatches (delete_user st2 uid2 true).2) := by
  constructor
  · intro h
    cases eo with
    | decodeError msg => simp [register_face] at h
    | noFace => simp [register_face] at h
    | ok img emb =>
        by_cases hc : dictContains st1.user_embeddings uid1
        · simp [register_face, hc] at h
        · simp [register_face, hc, save_user_data, diskMatches]
  · intro h
    by_cases hc : dictContains st2.user_embeddings uid2
    · cases hd : dictDelOpt st2.user_faces uid2 with
      | none => simp [delete_user, hc, hd] at h
      | some faces =>
          simp [delete_user, hc, hd, save_user_data, diskMatches]
    · simp [delete_user, hc] at h

/-- Witness for C8: a fresh registration of `u` and a deletion of the
registered user `v`. -/
theorem C8_witness :
    ((register_face (⟨[], [], none⟩ : RecState ℕ ℕ) "u"
        (.ok ⟨3, (2, 2, 3)⟩ 9) "t" true).1.success = true ∧
      diskMatches (register_face (⟨[], [], none⟩ : RecState ℕ ℕ) "u"
        (.ok ⟨3, (2, 2, 3)⟩ 9) "t" true).2) ∧
    ((delete_user
        (⟨[("v", 1)], [("v", ⟨⟨0, (1, 1, 3)⟩, "t0", (1, 1, 3)⟩)], none⟩ :
          RecState ℕ ℕ) "v" true).1.success = true ∧
      diskMatches (delete_user
        (⟨[("v", 1)], [("v", ⟨⟨0, (1, 1, 3)⟩, "t0", (1, 1, 3)⟩)], none⟩ :
          RecState ℕ ℕ) "v" true).2) :=
  ⟨⟨by decide,
    (C8_persist_after_mutation (⟨[], [], none⟩ : RecState ℕ ℕ) "u"
        (.ok ⟨3, (2, 2, 3)⟩ 9) "t"
        (⟨[("v", 1)], [("v", ⟨⟨0, (1, 1, 3)⟩, "t0", (1, 1, 3)⟩)], none⟩ :
          RecState ℕ ℕ) "v").1 (by decide)⟩,
   ⟨by decide,
    (C8_persist_after_mutation (⟨[], [], none⟩ : RecState ℕ ℕ) "u"
        (.ok ⟨3, (2, 2, 3)⟩ 9) "t"
        (⟨[("v", 1)], [("v", ⟨⟨0, (1, 1, 3)⟩, "t0", (1, 1, 3)⟩)], none⟩ :
          RecState ℕ ℕ) "v").2 (by decide)⟩⟩

/-- Claim C9: serializing with `save_user_data` and loading that
snapshot into a fresh instance reproduces both maps exactly (same keys,
same embeddings, same metadata). -/
theorem C9_persist_load_roundtrip {ε φ : Type} (st : RecState ε φ) :
    (load_user_data
        ⟨[], [], (save_user_data st true).disk⟩).user_embeddings =
      st.user_embeddings ∧
    (load_user_data ⟨[], [], (save_user_data st true).disk⟩).user_faces =
      st.user_faces := by
  simp [save_user_data, load_user_data]

/-! ## Batch comparison (main.py, `face_compare_batch`, lines 170-222)

The endpoint loops over `enumerate(request.imageDataList)`, calls
`compare_faces` per item, appends `(index, data)` to `results` on
success and `(index, message)` to `errors` on failure, and always
answers with a successful envelope.  The only way the inner `except`
could fire is the dict access `result['data']`; `compare_faces` never
pairs success with missing data, so that branch is dead (proved
below). -/

/-- The `data` payload of the batch response (lines 208-214). -/
structure BatchData where
  results : List (ℕ × CompareData)
  errors : List (ℕ × String)
  total : ℕ
  successCount : ℕ
  errorCount : ℕ

/-- The batch response envelope. -/
structure BatchResponse where
  success : Bool
  message : String
  data : BatchData

/-- The accumulator loop of lines 180-203: `i` is the running index,
the two accumulators are the `results` and `errors` lists. -/
noncomputable def batchLoop {φ : Type} (st : RecState (List ℝ) φ)
    (uid : String) (t : ℝ) :
    ℕ → List (ExtractOutcome (List ℝ) φ) → List (ℕ × CompareData) →
    List (ℕ × String) → List (ℕ × CompareData) × List (ℕ × String)
  | _, [], rs, es => (rs, es)
  | i, eo :: rest, rs, es =>
      match ((compare_faces st uid eo t).1).success,
          ((compare_faces st uid eo t).1).data with
      | true, some d => batchLoop st uid t (i + 1) rest (rs ++ [(i, d)]) es
      | true, none =>
          batchLoop st uid t (i + 1) rest rs (es ++ [(i, "KeyError: data")])
      | false, _ =>
          batchLoop st uid t (i + 1) rest rs
            (es ++ [(i, ((compare_faces st uid eo t).1).message)])

/-- `face_compare_batch` (lines 170-222). -/
noncomputable def face_compare_batch {φ : Type} (st : RecState (List ℝ) φ)
    (uid : String) (eos : List (ExtractOutcome (List ℝ) φ)) (t : ℝ) :
    BatchResponse :=
  let rs := (batchLoop st uid t 0 eos [] []).1
  let es := (batchLoop st uid t 0 eos [] []).2
  ⟨true, "批量对比完成", ⟨rs, es, eos.length, rs.length, es.length⟩⟩

/-- `compare_faces` never reports success without a data payload, so the
`KeyError` branch of the batch loop is unreachable. -/
theorem compare_faces_success_data {φ : Type} (st : RecState (List ℝ) φ)
    (uid : String) (eo : ExtractOutcome (List ℝ) φ) (t : ℝ) :
    ((compare_faces st uid eo t).1).success = true →
    ∃ d, ((compare_faces st uid eo t).1).data = some d := by
  unfold compare_faces
  cases dictGet st.user_embeddings uid with
  | none => simp
  | some stored => cases eo <;> simp

/-- Unfolding of the batch loop: the accumulators collect, in input
order, exactly the per-item outcomes of `compare_faces`, tagged with
their positions counted from `i`. -/
theorem batchLoop_spec {φ : Type} (st : RecState (List ℝ) φ)
    (uid : String) (t : ℝ) (eos : List (ExtractOutcome (List ℝ) φ)) :
    ∀ (i : ℕ) (rs : List (ℕ × CompareData)) (es : List (ℕ × String)),
    batchLoop st uid t i eos rs es =
      (rs ++ (List.enumFrom i eos).filterMap (fun p =>
          if ((compare_faces st uid p.2 t).1).success then
            ((compare_faces st uid p.2 t).1).data.map (fun d => (p.1, d))
          else none),
       es ++ (List.enumFrom i eos).filterMap (fun p =>
          if ((compare_faces st uid p.2 t).1).success then none
          else some (p.1, ((compare_faces st uid p.2 t).1).message))) := by
  induction eos with
  | nil => intro i rs es; simp [batchLoop, List.enumFrom]
  | cons eo rest ih =>
      intro i rs es
      have henum : List.enumFrom i (eo :: rest) =
          (i, eo) :: List.enumFrom (i + 1) rest := rfl
      cases hsucc : ((compare_faces st uid eo t).1).success with
      | true =>
          obtain ⟨d, hd⟩ := compare_faces_success_data st uid eo t hsucc
          have hstep : batchLoop st uid t i (eo :: rest) rs es =
              batchLoop st uid t (i + 1) rest (rs ++ [(i, d)]) es := by
            conv_lhs => unfold batchLoop
            rw [hsucc, hd]
          rw [hstep, ih, henum]
          simp [List.filterMap_cons, hsucc, hd]
      | false =>
          have hstep : batchLoop st uid t i (eo :: rest) rs es =
              batchLoop st uid t (i + 1) rest rs
                (es ++ [(i, ((compare_faces st uid eo t).1).message)]) := by
            conv_lhs => unfold batchLoop
            rw [hsucc]
          rw [hstep, ih, henum]
          simp [List.filterMap_cons, hsucc]

/-- Claim C7: the batch endpoint applies the single-compare logic to
each payload independently in input order; successes and failures are
collected into parallel lists tagged with the input position; the
counters match; and the envelope reports success unconditionally, even
when every item fails. -/
theorem C7_batch_independent_items {φ : Type} (st : RecState (List ℝ) φ)
    (uid : String) (eos : List (ExtractOutcome (List ℝ) φ)) (t : ℝ) :
    (face_compare_batch st uid eos t).success = true ∧
    (face_compare_batch st uid eos t).data.results =
      eos.enum.filterMap (fun p =>
        if ((compare_faces st uid p.2 t).1).success then
          ((compare_faces st uid p.2 t).1).data.map (fun d => (p.1, d))
        else none) ∧
    (face_compare_batch st uid eos t).data.errors =
      eos.enum.filterMap (fun p =>
        if ((compare_faces st uid p.2 t).1).success then none
        else some (p.1, ((compare_faces st uid p.2 t).1).message)) ∧
    (face_compare_batch st uid eos t).data.total = eos.length ∧
    (face_compare_batch st uid eos t).data.successCount =
      (face_compare_batch st uid eos t).data.results.length ∧
    (face_compare_batch st uid eos t).data.errorCount =
      (face_compare_batch st uid eos t).data.errors.length := by
  have h := batchLoop_spec st uid t eos 0 [] []
  simp [face_compare_batch, h, List.enum]

/-! ## Claim C10: `user_embeddings` and `user_faces` carry the same
userIds

The invariant is strengthened with the corresponding statement about the
disk snapshot: `save_user_data` only ever writes in-memory states, so
snapshots satisfy it, and `load_user_data` needs it to restore a
consistent pair of maps. -/

/-- Boolean test that two key lists contain the same elements. -/
def sameKeys (l1 l2 : List String) : Bool :=
  l1.all (fun k => l2.contains k) && l2.all (fun k => l1.contains k)

/-- The invariant: the two in-memory maps carry exactly the same
userIds, and so does any disk snapshot. -/
def stInv {ε φ : Type} (st : RecState ε φ) : Bool :=
  sameKeys (dictKeys st.user_embeddings) (dictKeys st.user_faces) &&
    (match st.disk with
     | none => true
     | some d => sameKeys (dictKeys d.1) (dictKeys d.2))

/-- One request against the service, with the external outcomes (decode
and detection, timestamp, pickle-write success) supplied as data. -/
inductive Op (φ : Type) where
  | registerOp (uid : String) (eo : ExtractOutcome (List ℝ) φ)
      (now : String) (writeOk : Bool)
  | compareOp (uid : String) (eo : ExtractOutcome (List ℝ) φ)
      (threshold : ℝ)
  | deleteOp (uid : String) (writeOk : Bool)
  | getOp (uid : String)
  | listOp
  | loadOp

/-- The state transition of each operation of the service. -/
noncomputable def step {φ : Type} (st : RecState (List ℝ) φ) :
    Op φ → RecState (List ℝ) φ
  | .registerOp uid eo now w => (register_face st uid eo now w).2
  | .compareOp uid eo t => (compare_faces st uid eo t).2
  | .deleteOp uid w => (delete_user st uid w).2
  | .getOp uid => (get_user_info st uid).2
  | .listOp => (get_all_users st).2
  | .loadOp => load_user_data st

/-- Two key lists with the same elements. -/
def KeysEq (l1 l2 : List String) : Prop :=
  ∀ a, a ∈ l1 ↔ a ∈ l2

theorem contains_iff_mem (l : List String) (a : String) :
    l.contains a = true ↔ a ∈ l := by
  simp [List.contains_eq_any_beq, List.any_eq_true, beq_iff_eq, eq_comm]

theorem sameKeys_iff (l1 l2 : List String) :
    sameKeys l1 l2 = true ↔ KeysEq l1 l2 := by
  unfold sameKeys KeysEq
  rw [Bool.and_eq_true, List.all_eq_true, List.all_eq_true]
  constructor
  · rintro ⟨h1, h2⟩ a
    exact ⟨fun ha => (contains_iff_mem _ _).mp (h1 a ha),
      fun ha => (contains_iff_mem _ _).mp (h2 a ha)⟩
  · intro h
    exact ⟨fun a ha => (contains_iff_mem _ _).mpr ((h a).mp ha),
      fun a ha => (contains_iff_mem _ _).mpr ((h a).mpr ha)⟩

theorem stInv_iff {ε φ : Type} (st : RecState ε φ) :
    stInv st = true ↔
      (KeysEq (dictKeys st.user_embeddings) (dictKeys st.user_faces) ∧
        ∀ e f, st.disk = some (e, f) → KeysEq (dictKeys e) (dictKeys f)) := by
  unfold stInv
  rw [Bool.and_eq_true, sameKeys_iff]
  cases hd : st.disk with
  | none => simp
  | some d =>
      cases d with
      | mk e f => simp [sameKeys_iff]

theorem dictContains_iff {α : Type} (d : List (String × α)) (k : String) :
    dictContains d k = true ↔ k ∈ dictKeys d := by
  unfold dictContains dictKeys
  simp [List.any_eq_true, List.mem_map, beq_iff_eq]

theorem dictKeys_dictSet_new {α : Type} (d : List (String × α))
    (k : String) (v : α) (h : dictContains d k = false) :
    dictKeys (dictSet d k v) = dictKeys d ++ [k] := by
  simp [dictSet, h, dictKeys]

theorem mem_dictKeys_dictDel {α : Type} (d : List (String × α))
    (k a : String) :
    a ∈ dictKeys (dictDel d k) ↔ a ∈ dictKeys d ∧ a ≠ k := by
  unfold dictDel dictKeys
  simp only [List.mem_map, List.mem_filter, bne_iff_ne]
  constructor
  · rintro ⟨p, ⟨hp, hne⟩, rfl⟩
    exact ⟨⟨p, hp, rfl⟩, hne⟩
  · rintro ⟨⟨p, hp, rfl⟩, hne⟩
    exact ⟨p, ⟨hp, hne⟩, rfl⟩

theorem KeysEq.appendOne {l1 l2 : List String} (h : KeysEq l1 l2)
    (k : String) : KeysEq (l1 ++ [k]) (l2 ++ [k]) := by
  intro a
  simp [List.mem_append, h a]

theorem KeysEq.delOne {α β : Type} {d1 : List (String × α)}
    {d2 : List (String × β)} (h : KeysEq (dictKeys d1) (dictKeys d2))
    (k : String) :
    KeysEq (dictKeys (dictDel d1 k)) (dictKeys (dictDel d2 k)) := by
  intro a
  rw [mem_dictKeys_dictDel, mem_dictKeys_dictDel, h a]

/-- Claim C10: every operation of the service (register, compare,
delete, get, list, load) preserves the invariant that the embedding map
and the metadata map contain exactly the same set of userIds (and that
any disk snapshot does too, which is what makes the invariant
inductive through load). -/
theorem C10_keys_invariant {φ : Type} (st : RecState (List ℝ) φ)
    (op : Op φ) (h : stInv st = true) : stInv (step st op) = true := by
  rw [stInv_iff] at h ⊢
  obtain ⟨hmem, hdisk⟩ := h
  cases op with
  | registerOp uid eo now w =>
      cases eo with
      | decodeError msg => exact ⟨hmem, hdisk⟩
      | noFace => exact ⟨hmem, hdisk⟩
      | ok img emb =>
          by_cases hc : dictContains st.user_embeddings uid = true
          · simp only [step, register_face, hc, if_true]
            exact ⟨hmem, hdisk⟩
          · have hc1 : dictContains st.user_embeddings uid = false := by
              cases hx : dictContains st.user_embeddings uid with
              | false => rfl
              | true => exact absurd hx hc
            have hmf : uid ∉ dictKeys st.user_faces := by
              intro hin
              have h1 : uid ∈ dictKeys st.user_embeddings := (hmem uid).mpr hin
              have h2 := (dictContains_iff _ _).mpr h1
              rw [hc1] at h2
              exact Bool.false_ne_true h2
            have hcf : dictContains st.user_faces uid = false := by
              cases hx : dictContains st.user_faces uid with
              | false => rfl
              | true => exact absurd ((dictContains_iff _ _).mp hx) hmf
            have hkeys :
                KeysEq (dictKeys (dictSet st.user_embeddings uid emb))
                  (dictKeys (dictSet st.user_faces uid
                    ⟨img, now, img.shape⟩)) := by
              rw [dictKeys_dictSet_new _ _ _ hc1,
                dictKeys_dictSet_new _ _ _ hcf]
              exact hmem.appendOne uid
            cases w with
            | true =>
                simp only [step, register_face, hc1, Bool.false_eq_true,
                  if_false, save_user_data, if_true]
                refine ⟨hkeys, ?_⟩
                intro e f heq
                simp only [Option.some.injEq, Prod.mk.injEq] at heq
                obtain ⟨rfl, rfl⟩ := heq
                exact hkeys
            | false =>
                simp only [step, register_face, hc1, Bool.false_eq_true,
                  if_false, save_user_data]
                exact ⟨hkeys, hdisk⟩
  | compareOp uid eo t =>
      have hst : (compare_faces st uid eo t).2 = st := by
        unfold compare_faces
        cases dictGet st.user_embeddings uid with
        | none => rfl
        | some stored => cases eo <;> rfl
      simp only [step, hst]
      exact ⟨hmem, hdisk⟩
  | deleteOp uid w =>
      by_cases hc : dictContains st.user_embeddings uid = true
      · have hkf : uid ∈ dictKeys st.user_faces :=
          (hmem uid).mp ((dictContains_iff _ _).mp hc)
        have hcf : dictContains st.user_faces uid = true :=
          (dictContains_iff _ _).mpr hkf
        have hdel : dictDelOpt st.user_faces uid =
            some (dictDel st.user_faces uid) := by
          simp [dictDelOpt, hcf]
        have hkeys := hmem.delOne uid
        cases w with
        | true =>
            simp only [step, delete_user, hc, if_true, hdel,
              save_user_data]
            refine ⟨hkeys, ?_⟩
            intro e f heq
            simp only [Option.some.injEq, Prod.mk.injEq] at heq
            obtain ⟨rfl, rfl⟩ := heq
            exact hkeys
        | false =>
            simp only [step, delete_user, hc, if_true, hdel,
              save_user_data, Bool.false_eq_true, if_false]
            exact ⟨hkeys, hdisk⟩
      · have hc1 : dictContains st.user_embeddings uid = false := by
          cases hx : dictContains st.user_embeddings uid with
          | false => rfl
          | true => exact absurd hx hc
        simp only [step, delete_user, hc1, Bool.false_eq_true, if_false]
        exact ⟨hmem, hdisk⟩
  | getOp uid =>
      have hst : (get_user_info st uid).2 = st := by
        unfold get_user_info
        cases dictGet st.user_faces uid <;> rfl
      simp only [step, hst]
      exact ⟨hmem, hdisk⟩
  | listOp =>
      simp only [step, get_all_users]
      exact ⟨hmem, hdisk⟩
  | loadOp =>
      cases hd : st.disk with
      | none =>
          simp only [step, load_user_data, hd]
          exact ⟨hmem, fun e f heq => Option.noConfusion heq⟩
      | some d =>
          cases d with
          | mk e f =>
              have hef := hdisk e f hd
              simp only [step, load_user_data, hd]
              refine ⟨hef, ?_⟩
              intro e1 f1 heq
              exact hdisk e1 f1 (hd ▸ heq)

/-- Witness for C10: registering `u` into the empty store. -/
theorem C10_witness :
    (stInv (⟨[], [], none⟩ : RecState (List ℝ) ℕ) = true) ∧
      stInv (step (⟨[], [], none⟩ : RecState (List ℝ) ℕ)
        (.registerOp "u" (.ok ⟨3, (2, 2, 3)⟩ [1]) "t" true)) = true :=
  ⟨by decide,
    C10_keys_invariant (⟨[], [], none⟩ : RecState (List ℝ) ℕ)
      (.registerOp "u" (.ok ⟨3, (2, 2, 3)⟩ [1]) "t" true) (by decide)⟩

end FaceCompare
